import Mathlib

/-!
# Verification of the trading bot core (signal engine, risk guard, position lifecycle)

Shallow embedding of the Python sources `src/src/utils.py`, `src/src/config.py`,
`src/src/strategy.py`, `src/src/risk_manager.py`, `src/src/position.py` and the
pyramiding gate of `src/bot.py`.  Python floats are modelled as `ℚ`; timestamps
are modelled as rational numbers of hours since an arbitrary epoch; UTC dates
are modelled as strings.  Numeric formatting inside human-readable reason
strings (Python f-string `:.1f` etc.) is approximated with `toString`; no
theorem below depends on the text of a formatted number.
-/

namespace TradingBot

/-! ## utils.py -/

/-- `utils.pct_change`: percentage P&L of `current` against `entry` for a side
("Buy" long / anything else short); returns 0 when the entry price is 0. -/
def pctChange (entry current : ℚ) (side : String) : ℚ :=
  if entry = 0 then 0
  else if side = "Buy" then ((current - entry) / entry) * 100
  else ((entry - current) / entry) * 100

/-- Python `int()`: truncation of a rational toward zero. -/
def truncRat (q : ℚ) : ℤ :=
  if q < 0 then -(Int.floor (-q)) else Int.floor q

/-- `utils.round_qty`: round a quantity down to the venue step
(`float(int(qty / step) * step)`). -/
def roundQty (qty step : ℚ) : ℚ :=
  ((truncRat (qty / step) : ℤ) : ℚ) * step

/-! ## config.py — the configuration surface used by the core. -/

/-- `config.Config`: the subset of configuration fields the verified core
reads.  Percentages are kept in percent units, as in the source.
`MIN_VOLUME_RATIO'` embeds the source field `MIN_VOLUME_RATIO` (primed name
for lexical reasons only). -/
structure Config where
  LEVERAGE : ℚ
  POSITION_SIZE_PCT : ℚ
  STOP_LOSS_PCT : ℚ
  TAKE_PROFIT_PCT : ℚ
  ENABLE_TRAILING_STOP : Bool
  TRAILING_STOP_ACTIVATE_PCT : ℚ
  TRAILING_STOP_CALLBACK_PCT : ℚ
  HIGH_CONFIDENCE_SIZE_PCT : ℚ
  MAX_POSITION_SIZE_PCT : ℚ
  HIGH_CONFIDENCE_THRESHOLD : ℤ
  MAX_DAILY_LOSS_PCT : ℚ
  ENFORCE_DAILY_LOSS_LIMIT : Bool
  MAX_DAILY_TRADES : ℕ
  PYRAMID_MAX_ADDS : ℕ
  PYRAMID_ADD_SIZE_MULT : ℚ
  PYRAMID_MIN_PROFIT_PCT : ℚ
  TIME_EXIT_HOURS : ℚ
  SCALP_MODE : Bool
  SCALP_STOP_LOSS_PCT : ℚ
  SCALP_TAKE_PROFIT_PCT : ℚ
  SCALP_FEE_BUFFER_PCT : ℚ
  MIN_VOLUME_RATIO' : ℚ
  RECENT_SL_LOOKBACK : ℚ
  deriving Repr, DecidableEq

/-- The default configuration values of `config.py` (env vars unset). -/
def defaultConfig : Config where
  LEVERAGE := 1
  POSITION_SIZE_PCT := 5
  STOP_LOSS_PCT := 2
  TAKE_PROFIT_PCT := 4
  ENABLE_TRAILING_STOP := true
  TRAILING_STOP_ACTIVATE_PCT := 7/2
  TRAILING_STOP_CALLBACK_PCT := 2
  HIGH_CONFIDENCE_SIZE_PCT := 8
  MAX_POSITION_SIZE_PCT := 10
  HIGH_CONFIDENCE_THRESHOLD := 3
  MAX_DAILY_LOSS_PCT := 3
  ENFORCE_DAILY_LOSS_LIMIT := true
  MAX_DAILY_TRADES := 5
  PYRAMID_MAX_ADDS := 2
  PYRAMID_ADD_SIZE_MULT := 1/2
  PYRAMID_MIN_PROFIT_PCT := 3/10
  TIME_EXIT_HOURS := 48
  SCALP_MODE := false
  SCALP_STOP_LOSS_PCT := 4/5
  SCALP_TAKE_PROFIT_PCT := 7/5
  SCALP_FEE_BUFFER_PCT := 3/20
  MIN_VOLUME_RATIO' := 3/10
  RECENT_SL_LOOKBACK := 3

/-! ## Indicator rows (the columns read by strategy.py / risk_manager.py). -/

/-- One row of the indicator table, with exactly the columns the signal
functions and the entry filters read.  `volume_ratio'` embeds the source
column `volume_ratio` (primed name for lexical reasons only). -/
structure IndicatorRow where
  adx : ℚ
  ema20_cross_up : Bool
  ema20_cross_down : Bool
  ema20_above_50 : Bool
  rsi : ℚ
  rsi_reversal_up : Bool
  rsi_reversal_down : Bool
  bb_pct : ℚ
  close : ℚ
  bb_mid : ℚ
  volume_ratio' : ℚ
  squeeze_release : Bool
  ema20_4h : ℚ
  ema50_4h : ℚ
  pullback_to_ema20 : Bool
  is_bullish : Bool
  is_bearish : Bool
  deriving Repr, DecidableEq

/-- A neutral default row (used only for the total modelling of `df.iloc[-1]`;
every theorem below restricts to tables where the last row exists). -/
def defaultRow : IndicatorRow where
  adx := 0
  ema20_cross_up := false
  ema20_cross_down := false
  ema20_above_50 := false
  rsi := 50
  rsi_reversal_up := false
  rsi_reversal_down := false
  bb_pct := 1/2
  close := 0
  bb_mid := 0
  volume_ratio' := 1
  squeeze_release := false
  ema20_4h := 0
  ema50_4h := 0
  pullback_to_ema20 := false
  is_bullish := false
  is_bearish := false

instance : Inhabited IndicatorRow := ⟨defaultRow⟩

/-! ## strategy.py — the four voters and the majority vote. -/

/-- `strategy.signal_ma`: MA crossover voter. -/
def signal_ma (row : IndicatorRow) : ℤ × String :=
  if row.adx < 20 then
    (0, "ADX=" ++ toString row.adx ++ "<20, no trend")
  else if row.ema20_cross_up then
    (1, "EMA20 crossed above EMA50, ADX=" ++ toString row.adx ++ ">20")
  else if row.ema20_cross_down then
    (-1, "EMA20 crossed below EMA50, ADX=" ++ toString row.adx ++ ">20")
  else if row.ema20_above_50 ∧ 25 < row.adx then
    (1, "EMA20>EMA50 trend continues, ADX=" ++ toString row.adx)
  else if ¬row.ema20_above_50 ∧ 25 < row.adx then
    (-1, "EMA20<EMA50 trend continues, ADX=" ++ toString row.adx)
  else
    (0, "No MA crossover, ADX=" ++ toString row.adx)

/-- `strategy.signal_rsi`: RSI reversal voter. -/
def signal_rsi (row : IndicatorRow) : ℤ × String :=
  if row.rsi < 35 ∧ row.rsi_reversal_up then
    (1, "RSI=" ++ toString row.rsi ++ "<35, reversal up detected")
  else if 65 < row.rsi ∧ row.rsi_reversal_down then
    (-1, "RSI=" ++ toString row.rsi ++ ">65, reversal down detected")
  else if 40 ≤ row.rsi ∧ row.rsi ≤ 60 then
    (0, "RSI=" ++ toString row.rsi ++ ", neutral zone (40-60)")
  else
    (0, "RSI=" ++ toString row.rsi ++ ", no reversal signal")

/-- `strategy.signal_bb`: Bollinger-band voter. -/
def signal_bb (row : IndicatorRow) : ℤ × String :=
  if row.squeeze_release then
    if row.bb_mid < row.close then
      (1, "Squeeze release, close>mid -> long")
    else
      (-1, "Squeeze release, close<mid -> short")
  else if row.bb_pct < 1/20 ∧ 1 < row.volume_ratio' then
    (1, "bb_pct=" ++ toString row.bb_pct ++ "<0.05, vol>1.0 -> long")
  else if 19/20 < row.bb_pct ∧ 1 < row.volume_ratio' then
    (-1, "bb_pct=" ++ toString row.bb_pct ++ ">0.95, vol>1.0 -> short")
  else
    (0, "bb_pct=" ++ toString row.bb_pct ++ ", no BB signal")

/-- `strategy.signal_mtf`: multi-timeframe voter. -/
def signal_mtf (row : IndicatorRow) : ℤ × String :=
  if row.ema50_4h < row.ema20_4h ∧ row.pullback_to_ema20 ∧ row.is_bullish ∧ row.rsi < 55 then
    (1, "4H uptrend, pullback to 1H EMA20, bullish candle, RSI<55")
  else if row.ema20_4h < row.ema50_4h ∧ row.pullback_to_ema20 ∧ row.is_bearish ∧ 45 < row.rsi then
    (-1, "4H downtrend, pullback to 1H EMA20, bearish candle, RSI>45")
  else
    (0, "MTF no signal")

/-- The majority-vote rule of `strategy.generate_signals`: +1 on at least two
buy votes and no sell vote, -1 on at least two sell votes and no buy vote,
otherwise 0. -/
def majorityCombined (buy_count sell_count : ℕ) : ℤ :=
  if 2 ≤ buy_count ∧ sell_count = 0 then 1
  else if 2 ≤ sell_count ∧ buy_count = 0 then -1
  else 0

/-- The dictionary returned by `strategy.generate_signals`. -/
structure CombinedSignal where
  MA : ℤ × String
  RSI : ℤ × String
  BB : ℤ × String
  MTF : ℤ × String
  combined_signal : ℤ
  signal_detail : String
  buy_count : ℕ
  sell_count : ℕ
  confidence : ℕ
  deriving Repr, DecidableEq

/-- `strategy.generate_signals`: run the four voters on the latest row and
combine them by majority vote; short-circuit on fewer than 200 rows. -/
def generate_signals (df : List IndicatorRow) : CombinedSignal :=
  if df.isEmpty ∨ df.length < 200 then
    { MA := (0, "Insufficient data")
      RSI := (0, "Insufficient data")
      BB := (0, "Insufficient data")
      MTF := (0, "Insufficient data")
      combined_signal := 0
      signal_detail := "Insufficient data"
      buy_count := 0
      sell_count := 0
      confidence := 0 }
  else
    let row := df.getLast?.getD defaultRow
    let ma := signal_ma row
    let rsi := signal_rsi row
    let bb := signal_bb row
    let mtf := signal_mtf row
    let values := [ma.1, rsi.1, bb.1, mtf.1]
    let buy_count := values.countP (fun v => v = 1)
    let sell_count := values.countP (fun v => v = -1)
    let combined : ℤ := majorityCombined buy_count sell_count
    let detail :=
      if 2 ≤ buy_count ∧ sell_count = 0 then "LONG"
      else if 2 ≤ sell_count ∧ buy_count = 0 then "SHORT"
      else "NO SIGNAL"
    { MA := ma
      RSI := rsi
      BB := bb
      MTF := mtf
      combined_signal := combined
      signal_detail := detail
      buy_count := buy_count
      sell_count := sell_count
      confidence := max buy_count sell_count }

/-! ## position.py — per-symbol position lifecycle state. -/

/-- The mutable per-position fields of `PositionManager` that the verified
operations read or write (timestamps in hours; MFE/MAE trackers and the
entry-snapshot dictionaries are not read by any verified operation and are
omitted). `qty_step`/`min_qty` are the per-symbol venue precision fields. -/
structure PosState where
  trade_id : Option String
  entry_time : Option ℚ
  entry_price : ℚ
  side : String
  qty : ℚ
  add_count : ℕ
  trailing_active : Bool
  trailing_high : ℚ
  qty_step : ℚ
  min_qty : ℚ
  deriving Repr, DecidableEq

/-- The stop-loss percentage used by `PositionManager._calc_sl_price`
(scalp-mode variant widened by the fee buffer). -/
def calcSlPct (c : Config) : ℚ :=
  let sl := if c.SCALP_MODE then c.SCALP_STOP_LOSS_PCT else c.STOP_LOSS_PCT
  if c.SCALP_MODE then sl + c.SCALP_FEE_BUFFER_PCT else sl

/-- `PositionManager._calc_sl_price`. -/
def calc_sl_price (c : Config) (st : PosState) : ℚ :=
  if st.side = "Buy" then st.entry_price * (1 - calcSlPct c / 100)
  else st.entry_price * (1 + calcSlPct c / 100)

/-- The take-profit percentage used by `PositionManager._calc_tp_price`
(scalp-mode variant narrowed by the fee buffer, floored at 0.1). -/
def calcTpPct (c : Config) : ℚ :=
  let tp := if c.SCALP_MODE then c.SCALP_TAKE_PROFIT_PCT else c.TAKE_PROFIT_PCT
  if c.SCALP_MODE then max (tp - c.SCALP_FEE_BUFFER_PCT) (1/10) else tp

/-- `PositionManager._calc_tp_price`. -/
def calc_tp_price (c : Config) (st : PosState) : ℚ :=
  if st.side = "Buy" then st.entry_price * (1 + calcTpPct c / 100)
  else st.entry_price * (1 - calcTpPct c / 100)

/-- `PositionManager._reset`. -/
def resetState (st : PosState) : PosState :=
  { st with
    trade_id := none, entry_time := none, entry_price := 0, side := "",
    qty := 0, add_count := 0, trailing_active := false, trailing_high := 0 }

/-- `PositionManager.has_position`. -/
def has_position (st : PosState) : Bool := st.side ≠ ""

/-- Result of one `check_exit` call: the returned exit reason, the state after
the call (trailing fields may have been mutated), and the server-side stop
price pushed via `exchange.update_stop_loss`, when one was pushed. -/
structure ExitResult where
  reason : Option String
  st : PosState
  slUpdate : Option ℚ
  deriving Repr, DecidableEq

/-- The trailing-activation step inside `check_exit`: once unrealized P&L
reaches the activation threshold (trailing enabled, not yet active), mark
trailing active and seed the extreme with the current price. -/
def activateTrailing (c : Config) (st : PosState) (pnl current_price : ℚ) : PosState :=
  if c.ENABLE_TRAILING_STOP = true ∧ c.TRAILING_STOP_ACTIVATE_PCT ≤ pnl ∧
      st.trailing_active = false
  then { st with trailing_active := true, trailing_high := current_price }
  else st

/-- The trailing-extreme replacement inside `check_exit`: for a long the
extreme is replaced only when the price strictly exceeds it, for a short only
when the price is strictly below it; the flag mirrors the source's `updated`
local. -/
def trailingUpdate (st1 : PosState) (current_price : ℚ) : PosState × Bool :=
  if st1.side = "Buy" then
    if st1.trailing_high < current_price
    then ({ st1 with trailing_high := current_price }, true)
    else (st1, false)
  else
    if current_price < st1.trailing_high
    then ({ st1 with trailing_high := current_price }, true)
    else (st1, false)

/-- `PositionManager.check_exit`: evaluate stop-loss, take-profit, trailing
stop, signal reversal and time exit in that order, mutating the trailing
state on the way (the source's early returns are flattened into an
if-else chain). `now` is the current time in hours. -/
def check_exit (c : Config) (st : PosState) (current_price : ℚ)
    (combined_signal : ℤ) (now : ℚ) : ExitResult :=
  if st.side = "" then ⟨none, st, none⟩
  else
    let pnl := pctChange st.entry_price current_price st.side
    if pnl ≤ -c.STOP_LOSS_PCT then ⟨some "SL_HIT", st, none⟩
    else if c.TAKE_PROFIT_PCT ≤ pnl then ⟨some "TP_HIT", st, none⟩
    else
      let st1 := activateTrailing c st pnl current_price
      let active := c.ENABLE_TRAILING_STOP = true ∧ st1.trailing_active = true
      let u := trailingUpdate st1 current_price
      let st2 := if active then u.1 else st1
      let slUpd : Option ℚ :=
        if active ∧ u.2 = true then
          some (if st2.side = "Buy"
            then st2.trailing_high * (1 - c.TRAILING_STOP_CALLBACK_PCT / 100)
            else st2.trailing_high * (1 + c.TRAILING_STOP_CALLBACK_PCT / 100))
        else none
      if active ∧ pctChange st2.trailing_high current_price st2.side ≤
          -c.TRAILING_STOP_CALLBACK_PCT then
        ⟨some "TRAILING_STOP", st2, slUpd⟩
      else if st2.side = "Buy" ∧ combined_signal = -1 then ⟨some "SIGNAL_REVERSE", st2, slUpd⟩
      else if st2.side = "Sell" ∧ combined_signal = 1 then ⟨some "SIGNAL_REVERSE", st2, slUpd⟩
      else
        match st2.entry_time with
        | some et =>
          if c.TIME_EXIT_HOURS ≤ now - et ∧ pnl < 0 then ⟨some "TIME_EXIT", st2, slUpd⟩
          else ⟨none, st2, slUpd⟩
        | none => ⟨none, st2, slUpd⟩

/-- Successive `check_exit` calls (`run_checks` threads the mutated state
through a list of (price, combined signal, time) ticks), collecting the state
after each call. -/
def run_checks (c : Config) : PosState → List (ℚ × ℤ × ℚ) → List PosState
  | _, [] => []
  | st, (p, sig, t) :: rest =>
    let r := check_exit c st p sig t
    r.st :: run_checks c r.st rest

/-- Result of `add_position`: the returned flag, the state after the call and
the (stop-loss, take-profit) pair pushed via `exchange.set_trading_stop`. -/
structure AddResult where
  ok : Bool
  st : PosState
  stopSet : Option (ℚ × ℚ)
  deriving Repr, DecidableEq

/-- `PositionManager.add_position` (pyramiding): add quantity to the open
position, recompute the weighted average entry price, bump the add counter
and re-push server-side stops from the new average. `orderOk` models the
fallible `exchange.place_order` collaborator call. -/
def add_position (c : Config) (st : PosState) (current_price qty_add : ℚ)
    (orderOk : Bool) : AddResult :=
  if st.side = "" then ⟨false, st, none⟩
  else if qty_add ≤ 0 then ⟨false, st, none⟩
  else if qty_add < st.min_qty then ⟨false, st, none⟩
  else if ¬orderOk then ⟨false, st, none⟩
  else
    let prev_value := st.entry_price * st.qty
    let add_value := current_price * qty_add
    let new_qty := st.qty + qty_add
    let new_entry := if 0 < new_qty then (prev_value + add_value) / new_qty else st.entry_price
    let st' := { st with
                 entry_price := new_entry, qty := new_qty,
                 add_count := st.add_count + 1,
                 trailing_high := max st.trailing_high current_price }
    ⟨true, st', some (calc_sl_price c st', calc_tp_price c st')⟩

/-- The position reported by `exchange.get_position`. -/
structure ExchangePos where
  side : String
  size : ℚ
  entry_price : ℚ
  deriving Repr, DecidableEq

/-- The synthetic trade record written by `PositionManager._log_server_close`
(the fields the reconciliation claims read). -/
structure SyntheticClose where
  exit_reason : String
  exit_price : ℚ
  pnl_pct : ℚ
  deriving Repr, DecidableEq

/-- `PositionManager.sync_with_exchange`: reconcile the local state against
the exchange-reported position. `last_price` models
`get_ticker().get("last_price", entry_price)`; `new_trade_id` models
`generate_trade_id()`. -/
def sync_with_exchange (c : Config) (st : PosState) (pos : Option ExchangePos)
    (last_price : Option ℚ) (now : ℚ) (new_trade_id : String) :
    PosState × Option SyntheticClose :=
  match pos with
  | none =>
    if st.side ≠ "" then
      let current_price := last_price.getD st.entry_price
      let pnl_pct := pctChange st.entry_price current_price st.side
      let exit_reason :=
        if pnl_pct ≤ -c.STOP_LOSS_PCT * (1/2) then "SERVER_SL"
        else if c.TAKE_PROFIT_PCT * (1/2) ≤ pnl_pct then "SERVER_TP"
        else "SERVER_CLOSE"
      (resetState st, some ⟨exit_reason, current_price, pnl_pct⟩)
    else (st, none)
  | some p =>
    if st.side = "" then
      ({ st with
         side := p.side, qty := p.size, entry_price := p.entry_price,
         entry_time := some now, trade_id := some new_trade_id }, none)
    else (st, none)

/-! ## risk_manager.py — daily risk state, entry filters, sizing. -/

/-- The mutable fields of `RiskManager` (timestamps in hours, date strings
for the UTC day). -/
structure RiskState where
  daily_pnl : ℚ
  daily_trade_count : ℕ
  consecutive_sl : ℕ
  cooldown_until : Option ℚ
  last_sl_times : List ℚ
  daily_reset_date : String
  deriving Repr, DecidableEq

/-- `RiskManager._check_daily_reset`: zero the counters when the UTC date has
rolled over. -/
def check_daily_reset (st : RiskState) (today : String) : RiskState :=
  if st.daily_reset_date ≠ today then
    { daily_pnl := 0, daily_trade_count := 0, consecutive_sl := 0,
      cooldown_until := none, last_sl_times := [], daily_reset_date := today }
  else st

/-- `RiskManager.can_trade`: daily-loss limit, daily trade cap and cooldown
checks, clearing an expired cooldown. Returns ((allowed, reason), new state);
the formatted parts of the failure messages are approximated. -/
def can_trade (c : Config) (st : RiskState) (now : ℚ) (today : String) :
    (Bool × String) × RiskState :=
  let st := check_daily_reset st today
  if c.ENFORCE_DAILY_LOSS_LIMIT ∧ st.daily_pnl ≤ -c.MAX_DAILY_LOSS_PCT then
    ((false, "일일 최대 손실 도달: " ++ toString st.daily_pnl), st)
  else if c.MAX_DAILY_TRADES ≤ st.daily_trade_count then
    ((false, "최대 매매 횟수 도달: " ++ toString st.daily_trade_count), st)
  else
    match st.cooldown_until with
    | some t =>
      if now < t then ((false, "쿨다운 중"), st)
      else ((true, "OK"), { st with cooldown_until := none, consecutive_sl := 0 })
    | none => ((true, "OK"), st)

/-- The dictionary returned by `RiskManager.check_entry_filters`. -/
structure EntryFilterResult where
  recent_sl : Bool
  low_volume : Bool
  wide_spread : Bool
  already_in_position : Bool
  passed : Bool
  deriving Repr, DecidableEq

/-- `RiskManager.check_entry_filters`: recent-stop-loss lockout, low-volume
lockout (only evaluated on tables of at least 20 rows) and the
already-in-position flag. -/
def check_entry_filters (c : Config) (st : RiskState) (df : List IndicatorRow)
    (now : ℚ) (has_pos : Bool) : EntryFilterResult :=
  let r0 : EntryFilterResult :=
    { recent_sl := false, low_volume := false, wide_spread := false,
      already_in_position := has_pos, passed := true }
  let recent_cutoff := now - c.RECENT_SL_LOOKBACK
  let recent_sls := st.last_sl_times.filter (fun t => recent_cutoff < t)
  let r1 := if recent_sls ≠ [] then { r0 with recent_sl := true, passed := false } else r0
  let r2 :=
    if ¬df.isEmpty ∧ 20 ≤ df.length ∧
        (df.getLast?.getD defaultRow).volume_ratio' < c.MIN_VOLUME_RATIO'
    then { r1 with low_volume := true, passed := false } else r1
  if has_pos then { r2 with passed := false } else r2

/-- `RiskManager.calc_position_size`: margin in USDT as a confidence-dependent
percentage of equity, capped at the maximum percentage. -/
def calc_position_size (c : Config) (equity : ℚ) (confidence : ℤ) : ℚ :=
  let size_pct :=
    if c.HIGH_CONFIDENCE_THRESHOLD ≤ confidence then c.HIGH_CONFIDENCE_SIZE_PCT
    else c.POSITION_SIZE_PCT
  let size_pct := min size_pct c.MAX_POSITION_SIZE_PCT
  equity * (size_pct / 100)

/-- Python `leverage or Config.LEVERAGE` (both `None` and `0` fall back to the
configured leverage). -/
def effectiveLeverage (c : Config) (leverage : Option ℚ) : ℚ :=
  match leverage with
  | none => c.LEVERAGE
  | some l => if l = 0 then c.LEVERAGE else l

/-- The (quantity, reason) pair returned by `calc_qty_from_equity` (of the
`detail` dictionary only the `reason` entry is read by the claims). -/
structure SizingResult where
  qty : ℚ
  reason : String
  deriving Repr, DecidableEq

/-- The margin pipeline inside `calc_qty_from_equity`: confidence-based
margin times the (nonnegative) size multiplier, hard-capped at
`MAX_POSITION_SIZE_PCT` of equity, then capped at 95% of the available
balance when one is supplied and positive. -/
def sizingMargin (c : Config) (equity : ℚ) (confidence : ℤ)
    (size_multiplier : ℚ) (available_balance : Option ℚ) : ℚ :=
  let margin := calc_position_size c equity confidence * max size_multiplier 0
  let max_margin := equity * c.MAX_POSITION_SIZE_PCT / 100
  let margin := if max_margin < margin then max_margin else margin
  match available_balance with
  | some ab =>
    if 0 < ab then
      let usable := ab * (19/20)
      if usable < margin then usable else margin
    else margin
  | none => margin

/-- `RiskManager.calc_qty_from_equity`: equity-percentage sizing with the
`MAX_POSITION_SIZE_PCT` hard cap, the 95%-of-available-balance cap, rounding
down to the venue step, and the below-minimum-quantity rejection. -/
def calc_qty_from_equity (c : Config) (equity : ℚ) (confidence : ℤ)
    (mark_price qty_step min_qty : ℚ) (leverage : Option ℚ)
    (size_multiplier : ℚ) (available_balance : Option ℚ) : SizingResult :=
  let lev := effectiveLeverage c leverage
  if equity ≤ 0 ∨ mark_price ≤ 0 then ⟨0, "invalid_equity_or_price"⟩
  else
    let margin := sizingMargin c equity confidence size_multiplier available_balance
    let position_value := margin * lev
    let raw_qty := position_value / mark_price
    let qty := roundQty raw_qty qty_step
    if qty < min_qty then ⟨0, "below_min_qty"⟩
    else ⟨qty, "ok"⟩

/-! ## bot.py — the pyramiding gate around `add_position`. -/

/-- Result of one pyramiding evaluation: whether an add-on happened, the
manager state afterwards, and the (stop, take-profit) pair pushed when it
happened. -/
structure PyramidResult where
  added : Bool
  st : PosState
  stopSet : Option (ℚ × ℚ)
  deriving Repr, DecidableEq

/-- The `want_side` computation of the pyramiding gate in bot.py. -/
def wantSide (combined : ℤ) : String :=
  if combined = 1 then "Buy" else if combined = -1 then "Sell" else ""

/-- The pyramiding gate of `TradingBot._process_symbol` (bot.py): same-side
signal, add-count under the maximum, unrealized P&L at or above the minimum
profit threshold, balance-based sizing with the pyramid size multiplier, then
`add_position`. -/
def pyramid_step (c : Config) (st : PosState) (price : ℚ) (combined : ℤ)
    (equity avail : ℚ) (confidence : ℤ) (orderOk : Bool) : PyramidResult :=
  let want_side := wantSide combined
  if want_side ≠ "" ∧ want_side = st.side ∧ st.add_count < c.PYRAMID_MAX_ADDS then
    let pnl_now := pctChange st.entry_price price st.side
    if c.PYRAMID_MIN_PROFIT_PCT ≤ pnl_now then
      let qty_add := (calc_qty_from_equity c equity confidence price st.qty_step
        st.min_qty none c.PYRAMID_ADD_SIZE_MULT (some avail)).qty
      if 0 < qty_add then
        let r := add_position c st price qty_add orderOk
        ⟨r.ok, r.st, r.stopSet⟩
      else ⟨false, st, none⟩
    else ⟨false, st, none⟩
  else ⟨false, st, none⟩

/-! ## Concrete example states for the witness instances. -/

/-- An open long position: entry 100, quantity 10, trailing not yet active. -/
def exLong : PosState where
  trade_id := some "T-1"
  entry_time := some 0
  entry_price := 100
  side := "Buy"
  qty := 10
  add_count := 0
  trailing_active := false
  trailing_high := 100
  qty_step := 1/10
  min_qty := 1/10

/-- The long position with trailing active and extreme at 105. -/
def exLongTrailing : PosState :=
  { exLong with trailing_active := true, trailing_high := 105 }

/-- An open short position with trailing active and extreme at 95. -/
def exShortTrailing : PosState :=
  { exLong with side := "Sell", trailing_active := true, trailing_high := 95 }

/-- A flat manager state (reset, venue precision retained). -/
def exFlat : PosState := resetState exLong

/-- A risk state on day "2026-10-12" with the daily loss limit exactly hit. -/
def exRiskAtLimit : RiskState where
  daily_pnl := -3
  daily_trade_count := 1
  consecutive_sl := 0
  cooldown_until := none
  last_sl_times := []
  daily_reset_date := "2026-10-12"

/-- A clean risk state (no losses, no stop-loss history). -/
def exRiskClean : RiskState where
  daily_pnl := 0
  daily_trade_count := 0
  consecutive_sl := 0
  cooldown_until := none
  last_sl_times := []
  daily_reset_date := "2026-10-12"

/-- A risk state with a stop-loss recorded at hour 99.5. -/
def exRiskRecentSl : RiskState :=
  { exRiskClean with last_sl_times := [199/2] }

/-- An indicator row whose volume ratio 0.1 is below the 0.3 minimum. -/
def exLowVolRow : IndicatorRow := { defaultRow with volume_ratio' := 1/10 }

/-! ## Helper lemmas shared by the claim theorems. -/

theorem majorityCombined_spec (b s : ℕ) :
    (majorityCombined b s = 1 ↔ 2 ≤ b ∧ s = 0) ∧
    (majorityCombined b s = -1 ↔ 2 ≤ s ∧ b = 0) ∧
    (¬(2 ≤ b ∧ s = 0) → ¬(2 ≤ s ∧ b = 0) → majorityCombined b s = 0) := by
  unfold majorityCombined
  split_ifs with h1 h2 <;> refine ⟨?_, ?_, ?_⟩ <;> simp_all

theorem roundQty_le_self (q step : ℚ) (hq : 0 ≤ q) (hs : 0 < step) :
    roundQty q step ≤ q := by
  unfold roundQty truncRat
  rw [if_neg (not_lt.mpr (div_nonneg hq hs.le))]
  calc ((Int.floor (q / step) : ℤ) : ℚ) * step
      ≤ (q / step) * step := mul_le_mul_of_nonneg_right (Int.floor_le _) hs.le
    _ = q := div_mul_cancel₀ q (ne_of_gt hs)

theorem roundQty_nonpos (q step : ℚ) (hq : q < 0) (hs : 0 < step) :
    roundQty q step ≤ 0 := by
  unfold roundQty truncRat
  rw [if_pos (div_neg_of_neg_of_pos hq hs)]
  have h1 : (0 : ℤ) ≤ Int.floor (-(q / step)) :=
    Int.floor_nonneg.mpr (le_of_lt (neg_pos.mpr (div_neg_of_neg_of_pos hq hs)))
  have h2 : ((-(Int.floor (-(q / step))) : ℤ) : ℚ) ≤ 0 := by
    push_cast
    exact neg_nonpos.mpr (by exact_mod_cast h1)
  calc ((-(Int.floor (-(q / step))) : ℤ) : ℚ) * step ≤ 0 * step :=
        mul_le_mul_of_nonneg_right h2 hs.le
    _ = 0 := zero_mul step

theorem roundQty_le_max (q step : ℚ) (hs : 0 < step) :
    roundQty q step ≤ max q 0 := by
  rcases le_or_lt 0 q with h | h
  · exact le_trans (roundQty_le_self q step h hs) (le_max_left q 0)
  · exact le_trans (roundQty_nonpos q step h hs) (le_max_right q 0)

@[simp] theorem activateTrailing_side (c : Config) (st : PosState) (pnl cp : ℚ) :
    (activateTrailing c st pnl cp).side = st.side := by
  unfold activateTrailing
  split_ifs <;> rfl

@[simp] theorem activateTrailing_entry_time (c : Config) (st : PosState) (pnl cp : ℚ) :
    (activateTrailing c st pnl cp).entry_time = st.entry_time := by
  unfold activateTrailing
  split_ifs <;> rfl

@[simp] theorem activateTrailing_entry_price (c : Config) (st : PosState) (pnl cp : ℚ) :
    (activateTrailing c st pnl cp).entry_price = st.entry_price := by
  unfold activateTrailing
  split_ifs <;> rfl

@[simp] theorem trailingUpdate_fst_side (st1 : PosState) (cp : ℚ) :
    (trailingUpdate st1 cp).1.side = st1.side := by
  unfold trailingUpdate
  split_ifs <;> rfl

@[simp] theorem trailingUpdate_fst_entry_time (st1 : PosState) (cp : ℚ) :
    (trailingUpdate st1 cp).1.entry_time = st1.entry_time := by
  unfold trailingUpdate
  split_ifs <;> rfl

@[simp] theorem trailingUpdate_fst_trailing_active (st1 : PosState) (cp : ℚ) :
    (trailingUpdate st1 cp).1.trailing_active = st1.trailing_active := by
  unfold trailingUpdate
  split_ifs <;> rfl

@[simp] theorem trailingUpdate_fst_entry_price (st1 : PosState) (cp : ℚ) :
    (trailingUpdate st1 cp).1.entry_price = st1.entry_price := by
  unfold trailingUpdate
  split_ifs <;> rfl

/-! ## Claim theorems. -/

/-- C10: the percentage-change function underlying every P&L computation
returns 0 when the entry price is 0, for every side and current price; in
particular it returns 0 on a reset (flat) position, whose entry price is 0,
so no P&L evaluation divides by zero. -/
theorem pct_change_zero_entry_safe (current : ℚ) (side : String) (st : PosState) (p : ℚ) :
    pctChange 0 current side = 0 ∧
    (resetState st).entry_price = 0 ∧
    pctChange (resetState st).entry_price p (resetState st).side = 0 := by
  refine ⟨?_, rfl, ?_⟩ <;> simp [pctChange, resetState]

/-- C6: with fewer than 200 rows of indicator data (the empty table
included), `generate_signals` returns a fully neutral result: combined
signal 0, zero buy/sell counts, zero confidence, and all four voters vote 0
with an explicit insufficient-data reason. -/
theorem generate_signals_insufficient_data (df : List IndicatorRow)
    (h : df.length < 200) :
    (generate_signals df).combined_signal = 0 ∧
    (generate_signals df).buy_count = 0 ∧
    (generate_signals df).sell_count = 0 ∧
    (generate_signals df).confidence = 0 ∧
    (generate_signals df).MA = (0, "Insufficient data") ∧
    (generate_signals df).RSI = (0, "Insufficient data") ∧
    (generate_signals df).BB = (0, "Insufficient data") ∧
    (generate_signals df).MTF = (0, "Insufficient data") := by
  rw [generate_signals, if_pos (Or.inr h)]
  exact ⟨rfl, rfl, rfl, rfl, rfl, rfl, rfl, rfl⟩

/-- Witness for C6 at the empty table. -/
theorem generate_signals_insufficient_data_witness :
    ([] : List IndicatorRow).length < 200 ∧
    (generate_signals []).combined_signal = 0 ∧
    (generate_signals []).buy_count = 0 ∧
    (generate_signals []).sell_count = 0 ∧
    (generate_signals []).confidence = 0 ∧
    (generate_signals []).MA = (0, "Insufficient data") ∧
    (generate_signals []).RSI = (0, "Insufficient data") ∧
    (generate_signals []).BB = (0, "Insufficient data") ∧
    (generate_signals []).MTF = (0, "Insufficient data") :=
  ⟨by decide, generate_signals_insufficient_data [] (by decide)⟩

/-- C1: on an indicator table of at least 200 rows, `generate_signals`
combines the four voters by strict majority: combined = +1 exactly when at
least two voters vote +1 and none votes -1, combined = -1 exactly when at
least two vote -1 and none votes +1, combined = 0 in every other case; the
buy/sell counts are the numbers of voters voting +1 resp. -1, and the
confidence equals max(buy count, sell count). -/
theorem generate_signals_majority (df : List IndicatorRow) (r : CombinedSignal)
    (h : 200 ≤ df.length) (hr : r = generate_signals df) :
    (r.combined_signal = 1 ↔ 2 ≤ r.buy_count ∧ r.sell_count = 0) ∧
    (r.combined_signal = -1 ↔ 2 ≤ r.sell_count ∧ r.buy_count = 0) ∧
    (¬(2 ≤ r.buy_count ∧ r.sell_count = 0) → ¬(2 ≤ r.sell_count ∧ r.buy_count = 0) →
      r.combined_signal = 0) ∧
    r.buy_count = ([r.MA.1, r.RSI.1, r.BB.1, r.MTF.1].countP (fun v => v = 1)) ∧
    r.sell_count = ([r.MA.1, r.RSI.1, r.BB.1, r.MTF.1].countP (fun v => v = -1)) ∧
    r.confidence = max r.buy_count r.sell_count := by
  have hcond : ¬(df.isEmpty ∨ df.length < 200) := by
    rintro (he | hl)
    · rw [List.isEmpty_iff] at he
      rw [he] at h
      simp at h
    · omega
  rw [generate_signals, if_neg hcond] at hr
  subst hr
  dsimp only
  exact ⟨(majorityCombined_spec _ _).1, (majorityCombined_spec _ _).2.1,
    (majorityCombined_spec _ _).2.2, rfl, rfl, rfl⟩

/-- C2: for every open position, `check_exit` evaluates its triggers in the
fixed order stop-loss, take-profit, trailing stop, signal reversal, time
exit: it returns SL_HIT exactly when unrealized P&L ≤ -stopLossPct (so the
stop-loss pre-empts everything else), TP_HIT exactly when P&L ≥
takeProfitPct and the stop-loss condition does not hold, and TIME_EXIT only
when the holding time has reached the configured maximum, P&L is strictly
negative, and no higher-priority trigger fired. -/
theorem check_exit_priority (c : Config) (st : PosState) (p : ℚ) (sig : ℤ) (now : ℚ)
    (r : ExitResult) (hside : st.side ≠ "") (hr : r = check_exit c st p sig now) :
    (r.reason = some "SL_HIT" ↔
      pctChange st.entry_price p st.side ≤ -c.STOP_LOSS_PCT) ∧
    (r.reason = some "TP_HIT" ↔
      (c.TAKE_PROFIT_PCT ≤ pctChange st.entry_price p st.side ∧
        ¬pctChange st.entry_price p st.side ≤ -c.STOP_LOSS_PCT)) ∧
    (r.reason = some "TIME_EXIT" →
      (∃ et, st.entry_time = some et ∧ c.TIME_EXIT_HOURS ≤ now - et) ∧
      pctChange st.entry_price p st.side < 0 ∧
      ¬pctChange st.entry_price p st.side ≤ -c.STOP_LOSS_PCT ∧
      ¬c.TAKE_PROFIT_PCT ≤ pctChange st.entry_price p st.side ∧
      ¬(st.side = "Buy" ∧ sig = -1) ∧ ¬(st.side = "Sell" ∧ sig = 1) ∧
      ¬(c.ENABLE_TRAILING_STOP = true ∧ r.st.trailing_active = true ∧
        pctChange r.st.trailing_high p r.st.side ≤ -c.TRAILING_STOP_CALLBACK_PCT)) := by
  unfold check_exit at hr
  rw [if_neg hside] at hr
  dsimp only at hr
  set pnl := pctChange st.entry_price p st.side with hpnl
  by_cases h1 : pnl ≤ -c.STOP_LOSS_PCT
  · rw [if_pos h1] at hr
    subst hr
    refine ⟨?_, ?_, ?_⟩ <;> simp [h1]
  · rw [if_neg h1] at hr
    by_cases h2 : c.TAKE_PROFIT_PCT ≤ pnl
    · rw [if_pos h2] at hr
      subst hr
      refine ⟨?_, ?_, ?_⟩ <;> simp [h1, h2]
    · rw [if_neg h2] at hr
      set A := activateTrailing c st pnl p with hA
      set u := trailingUpdate A p with hu
      set st2 := if c.ENABLE_TRAILING_STOP = true ∧ A.trailing_active = true
        then u.1 else A with hst2
      have hside2 : st2.side = st.side := by
        rw [hst2]
        split_ifs <;> simp [hu, hA]
      have hact2 : st2.trailing_active = A.trailing_active := by
        rw [hst2]
        split_ifs <;> simp [hu]
      have het2 : st2.entry_time = st.entry_time := by
        rw [hst2]
        split_ifs <;> simp [hu, hA]
      by_cases h3 : (c.ENABLE_TRAILING_STOP = true ∧ A.trailing_active = true) ∧
          pctChange st2.trailing_high p st2.side ≤ -c.TRAILING_STOP_CALLBACK_PCT
      · rw [if_pos h3] at hr
        subst hr
        refine ⟨?_, ?_, ?_⟩ <;> simp [h1, h2]
      · rw [if_neg h3] at hr
        by_cases h4 : st2.side = "Buy" ∧ sig = -1
        · rw [if_pos h4] at hr
          subst hr
          refine ⟨?_, ?_, ?_⟩ <;> simp [h1, h2]
        · rw [if_neg h4] at hr
          by_cases h5 : st2.side = "Sell" ∧ sig = 1
          · rw [if_pos h5] at hr
            subst hr
            refine ⟨?_, ?_, ?_⟩ <;> simp [h1, h2]
          · rw [if_neg h5] at hr
            rw [het2] at hr
            rcases het : st.entry_time with _ | et
            · rw [het] at hr
              dsimp only at hr
              subst hr
              refine ⟨?_, ?_, ?_⟩ <;> simp [h1, h2]
            · rw [het] at hr
              dsimp only at hr
              by_cases h7 : c.TIME_EXIT_HOURS ≤ now - et ∧ pnl < 0
              · rw [if_pos h7] at hr
                subst hr
                refine ⟨?_, ?_, ?_⟩
                · simp [h1]
                · simp [h1, h2]
                · intro _
                  refine ⟨⟨et, rfl, h7.1⟩, h7.2, h1, h2, ?_, ?_, ?_⟩
                  · rw [← hside2]
                    exact h4
                  · rw [← hside2]
                    exact h5
                  · dsimp only
                    rintro ⟨he, hta, hdd⟩
                    rw [hact2] at hta
                    exact h3 ⟨⟨he, hta⟩, hdd⟩
              · rw [if_neg h7] at hr
                subst hr
                refine ⟨?_, ?_, ?_⟩ <;> simp [h1, h2]

/-- Witness for C2 on a long at 100 marked at 97 (stop-loss region). -/
theorem check_exit_priority_witness :
    exLong.side ≠ "" ∧
    (((check_exit defaultConfig exLong 97 0 1).reason = some "SL_HIT" ↔
        pctChange exLong.entry_price 97 exLong.side ≤ -defaultConfig.STOP_LOSS_PCT) ∧
      ((check_exit defaultConfig exLong 97 0 1).reason = some "TP_HIT" ↔
        (defaultConfig.TAKE_PROFIT_PCT ≤ pctChange exLong.entry_price 97 exLong.side ∧
          ¬pctChange exLong.entry_price 97 exLong.side ≤ -defaultConfig.STOP_LOSS_PCT)) ∧
      ((check_exit defaultConfig exLong 97 0 1).reason = some "TIME_EXIT" →
        (∃ et, exLong.entry_time = some et ∧ defaultConfig.TIME_EXIT_HOURS ≤ 1 - et) ∧
        pctChange exLong.entry_price 97 exLong.side < 0 ∧
        ¬pctChange exLong.entry_price 97 exLong.side ≤ -defaultConfig.STOP_LOSS_PCT ∧
        ¬defaultConfig.TAKE_PROFIT_PCT ≤ pctChange exLong.entry_price 97 exLong.side ∧
        ¬(exLong.side = "Buy" ∧ (0 : ℤ) = -1) ∧ ¬(exLong.side = "Sell" ∧ (0 : ℤ) = 1) ∧
        ¬(defaultConfig.ENABLE_TRAILING_STOP = true ∧
          (check_exit defaultConfig exLong 97 0 1).st.trailing_active = true ∧
          pctChange (check_exit defaultConfig exLong 97 0 1).st.trailing_high 97
              (check_exit defaultConfig exLong 97 0 1).st.side ≤
            -defaultConfig.TRAILING_STOP_CALLBACK_PCT))) :=
  ⟨by decide, check_exit_priority defaultConfig exLong 97 0 1 _ (by decide) rfl⟩

/-- Witness for C1 on a concrete 200-row table. -/
theorem generate_signals_majority_witness :
    200 ≤ (List.replicate 200 defaultRow).length ∧
    (((generate_signals (List.replicate 200 defaultRow)).combined_signal = 1 ↔
        2 ≤ (generate_signals (List.replicate 200 defaultRow)).buy_count ∧
          (generate_signals (List.replicate 200 defaultRow)).sell_count = 0) ∧
      ((generate_signals (List.replicate 200 defaultRow)).combined_signal = -1 ↔
        2 ≤ (generate_signals (List.replicate 200 defaultRow)).sell_count ∧
          (generate_signals (List.replicate 200 defaultRow)).buy_count = 0) ∧
      (¬(2 ≤ (generate_signals (List.replicate 200 defaultRow)).buy_count ∧
            (generate_signals (List.replicate 200 defaultRow)).sell_count = 0) →
        ¬(2 ≤ (generate_signals (List.replicate 200 defaultRow)).sell_count ∧
            (generate_signals (List.replicate 200 defaultRow)).buy_count = 0) →
        (generate_signals (List.replicate 200 defaultRow)).combined_signal = 0) ∧
      (generate_signals (List.replicate 200 defaultRow)).buy_count =
        ([(generate_signals (List.replicate 200 defaultRow)).MA.1,
          (generate_signals (List.replicate 200 defaultRow)).RSI.1,
          (generate_signals (List.replicate 200 defaultRow)).BB.1,
          (generate_signals (List.replicate 200 defaultRow)).MTF.1].countP (fun v => v = 1)) ∧
      (generate_signals (List.replicate 200 defaultRow)).sell_count =
        ([(generate_signals (List.replicate 200 defaultRow)).MA.1,
          (generate_signals (List.replicate 200 defaultRow)).RSI.1,
          (generate_signals (List.replicate 200 defaultRow)).BB.1,
          (generate_signals (List.replicate 200 defaultRow)).MTF.1].countP (fun v => v = -1)) ∧
      (generate_signals (List.replicate 200 defaultRow)).confidence =
        max (generate_signals (List.replicate 200 defaultRow)).buy_count
          (generate_signals (List.replicate 200 defaultRow)).sell_count) :=
  ⟨by rw [List.length_replicate],
    generate_signals_majority (List.replicate 200 defaultRow) _
      (by rw [List.length_replicate]) rfl⟩

theorem activateTrailing_of_active (c : Config) (st : PosState) (pnl cp : ℚ)
    (h : st.trailing_active = true) : activateTrailing c st pnl cp = st := by
  unfold activateTrailing
  rw [if_neg]
  simp [h]

theorem trailingUpdate_high_buy (st1 : PosState) (cp : ℚ) (h : st1.side = "Buy") :
    st1.trailing_high ≤ (trailingUpdate st1 cp).1.trailing_high := by
  unfold trailingUpdate
  rw [if_pos h]
  split_ifs with hlt
  · exact le_of_lt hlt
  · exact le_rfl

theorem trailingUpdate_high_sell (st1 : PosState) (cp : ℚ) (h : ¬st1.side = "Buy") :
    (trailingUpdate st1 cp).1.trailing_high ≤ st1.trailing_high := by
  unfold trailingUpdate
  rw [if_neg h]
  split_ifs with hlt
  · exact le_of_lt hlt
  · exact le_rfl

theorem check_exit_step (c : Config) (st : PosState) (p : ℚ) (sig : ℤ) (t : ℚ)
    (hact : st.trailing_active = true) :
    (check_exit c st p sig t).st.side = st.side ∧
    (check_exit c st p sig t).st.trailing_active = true ∧
    (st.side = "Buy" → st.trailing_high ≤ (check_exit c st p sig t).st.trailing_high) ∧
    (¬st.side = "Buy" → (check_exit c st p sig t).st.trailing_high ≤ st.trailing_high) := by
  by_cases hside : st.side = ""
  · unfold check_exit
    rw [if_pos hside]
    exact ⟨rfl, hact, fun _ => le_rfl, fun _ => le_rfl⟩
  · unfold check_exit
    rw [if_neg hside]
    dsimp only
    rw [activateTrailing_of_active c st (pctChange st.entry_price p st.side) p hact]
    set pnl := pctChange st.entry_price p st.side with hpnl
    set u := trailingUpdate st p with hu
    set st2 := if c.ENABLE_TRAILING_STOP = true ∧ st.trailing_active = true
      then u.1 else st with hst2
    have h2side : st2.side = st.side := by
      rw [hst2]
      split_ifs <;> simp [hu]
    have h2act : st2.trailing_active = true := by
      rw [hst2]
      split_ifs <;> simp [hu, hact]
    have h2buy : st.side = "Buy" → st.trailing_high ≤ st2.trailing_high := by
      intro hb
      rw [hst2]
      split_ifs with hc
      · rw [hu]
        exact trailingUpdate_high_buy st p hb
      · exact le_rfl
    have h2sell : ¬st.side = "Buy" → st2.trailing_high ≤ st.trailing_high := by
      intro hb
      rw [hst2]
      split_ifs with hc
      · rw [hu]
        exact trailingUpdate_high_sell st p hb
      · exact le_rfl
    by_cases h1 : pnl ≤ -c.STOP_LOSS_PCT
    · rw [if_pos h1]
      exact ⟨rfl, hact, fun _ => le_rfl, fun _ => le_rfl⟩
    · rw [if_neg h1]
      by_cases h2 : c.TAKE_PROFIT_PCT ≤ pnl
      · rw [if_pos h2]
        exact ⟨rfl, hact, fun _ => le_rfl, fun _ => le_rfl⟩
      · rw [if_neg h2]
        by_cases h3 : (c.ENABLE_TRAILING_STOP = true ∧ st.trailing_active = true) ∧
            pctChange st2.trailing_high p st2.side ≤ -c.TRAILING_STOP_CALLBACK_PCT
        · rw [if_pos h3]
          exact ⟨h2side, h2act, h2buy, h2sell⟩
        · rw [if_neg h3]
          rcases het : st2.entry_time with _ | et <;> dsimp only <;>
            split_ifs <;> exact ⟨h2side, h2act, h2buy, h2sell⟩

theorem run_checks_high_chain_buy (c : Config) (inputs : List (ℚ × ℤ × ℚ))
    (st : PosState) (hact : st.trailing_active = true) (hb : st.side = "Buy") :
    List.Chain' (fun s1 s2 => s1.trailing_high ≤ s2.trailing_high)
      (st :: run_checks c st inputs) := by
  induction inputs generalizing st with
  | nil => simp [run_checks]
  | cons ip rest ih =>
    obtain ⟨p, sig, t⟩ := ip
    have hstep := check_exit_step c st p sig t hact
    have hchain := ih (check_exit c st p sig t).st hstep.2.1 (by rw [hstep.1]; exact hb)
    simp only [run_checks]
    exact List.Chain'.cons (hstep.2.2.1 hb) hchain

theorem run_checks_high_chain_sell (c : Config) (inputs : List (ℚ × ℤ × ℚ))
    (st : PosState) (hact : st.trailing_active = true) (hb : st.side = "Sell") :
    List.Chain' (fun s1 s2 => s2.trailing_high ≤ s1.trailing_high)
      (st :: run_checks c st inputs) := by
  induction inputs generalizing st with
  | nil => simp [run_checks]
  | cons ip rest ih =>
    obtain ⟨p, sig, t⟩ := ip
    have hstep := check_exit_step c st p sig t hact
    have hchain := ih (check_exit c st p sig t).st hstep.2.1 (by rw [hstep.1]; exact hb)
    simp only [run_checks]
    refine List.Chain'.cons (hstep.2.2.2 ?_) hchain
    rw [hb]
    intro hcontra
    exact absurd hcontra (by decide)


/-- C4: once trailing is active, across every sequence of successive
`check_exit` calls the tracked trailing extreme of a long position never
decreases and so the computed protective stop (extreme times
1 - callbackPct/100) never decreases; symmetrically, for a short position
the extreme never increases and the stop (extreme times 1 + callbackPct/100)
never increases. -/
theorem trailing_stop_ratchet (c : Config) (st : PosState)
    (inputs : List (ℚ × ℤ × ℚ)) (hact : st.trailing_active = true)
    (hcb0 : 0 ≤ c.TRAILING_STOP_CALLBACK_PCT)
    (hcb1 : c.TRAILING_STOP_CALLBACK_PCT ≤ 100) :
    (st.side = "Buy" →
      ((st :: run_checks c st inputs).map PosState.trailing_high).Chain' (· ≤ ·) ∧
      ((st :: run_checks c st inputs).map
        (fun s => s.trailing_high * (1 - c.TRAILING_STOP_CALLBACK_PCT / 100))).Chain'
        (· ≤ ·)) ∧
    (st.side = "Sell" →
      ((st :: run_checks c st inputs).map PosState.trailing_high).Chain'
        (fun a b => b ≤ a) ∧
      ((st :: run_checks c st inputs).map
        (fun s => s.trailing_high * (1 + c.TRAILING_STOP_CALLBACK_PCT / 100))).Chain'
        (fun a b => b ≤ a)) := by
  constructor
  · intro hb
    have hchain := run_checks_high_chain_buy c inputs st hact hb
    constructor
    · exact (List.chain'_map _).mpr hchain
    · refine (List.chain'_map _).mpr (hchain.imp ?_)
      intro a b hab
      have hk : (0:ℚ) ≤ 1 - c.TRAILING_STOP_CALLBACK_PCT / 100 := by linarith
      exact mul_le_mul_of_nonneg_right hab hk
  · intro hbs
    have hchain := run_checks_high_chain_sell c inputs st hact hbs
    constructor
    · exact (List.chain'_map _).mpr hchain
    · refine (List.chain'_map _).mpr (hchain.imp ?_)
      intro a b hab
      have hk : (0:ℚ) ≤ 1 + c.TRAILING_STOP_CALLBACK_PCT / 100 := by linarith
      exact mul_le_mul_of_nonneg_right hab hk

/-- Witness for C4: a long with trailing active stepped through prices 106, 108, 107. -/
theorem trailing_stop_ratchet_witness :
    exLongTrailing.trailing_active = true ∧
    (0:ℚ) ≤ defaultConfig.TRAILING_STOP_CALLBACK_PCT ∧
    defaultConfig.TRAILING_STOP_CALLBACK_PCT ≤ 100 ∧
    ((exLongTrailing.side = "Buy" →
      ((exLongTrailing :: run_checks defaultConfig exLongTrailing
          [(106, 0, 1), (108, 0, 2), (107, 0, 3)]).map PosState.trailing_high).Chain'
        (· ≤ ·) ∧
      ((exLongTrailing :: run_checks defaultConfig exLongTrailing
          [(106, 0, 1), (108, 0, 2), (107, 0, 3)]).map
        (fun s => s.trailing_high *
          (1 - defaultConfig.TRAILING_STOP_CALLBACK_PCT / 100))).Chain' (· ≤ ·)) ∧
    (exLongTrailing.side = "Sell" →
      ((exLongTrailing :: run_checks defaultConfig exLongTrailing
          [(106, 0, 1), (108, 0, 2), (107, 0, 3)]).map PosState.trailing_high).Chain'
        (fun a b => b ≤ a) ∧
      ((exLongTrailing :: run_checks defaultConfig exLongTrailing
          [(106, 0, 1), (108, 0, 2), (107, 0, 3)]).map
        (fun s => s.trailing_high *
          (1 + defaultConfig.TRAILING_STOP_CALLBACK_PCT / 100))).Chain'
        (fun a b => b ≤ a))) :=
  ⟨rfl, by decide, by decide,
    trailing_stop_ratchet defaultConfig exLongTrailing
      [(106, 0, 1), (108, 0, 2), (107, 0, 3)] rfl (by decide) (by decide)⟩

theorem sizingMargin_le_cap (c : Config) (equity : ℚ) (confidence : ℤ)
    (m : ℚ) (ab : Option ℚ) :
    sizingMargin c equity confidence m ab ≤ equity * c.MAX_POSITION_SIZE_PCT / 100 := by
  unfold sizingMargin
  rcases ab with _ | a <;> dsimp only <;> split_ifs <;> linarith

theorem sizingMargin_le_avail (c : Config) (equity : ℚ) (confidence : ℤ)
    (m : ℚ) (a : ℚ) (ha : 0 < a) :
    sizingMargin c equity confidence m (some a) ≤ a * (19/20) := by
  unfold sizingMargin
  dsimp only
  rw [if_pos ha]
  split_ifs <;> linarith

/-- C3: for every positive equity and mark price and any confidence, the
quantity returned by `calc_qty_from_equity` has implied margin
(quantity x markPrice / leverage) at most equity x MAX_POSITION_SIZE_PCT/100;
when a positive available balance is supplied the implied margin is further
at most 95% of that balance; and the quantity is an integer multiple of the
venue quantity step (rounded down). -/
theorem calc_qty_from_equity_margin_cap (c : Config) (equity : ℚ) (confidence : ℤ)
    (mark_price qty_step min_qty : ℚ) (leverage : Option ℚ) (size_multiplier : ℚ)
    (avail : Option ℚ) (q : ℚ)
    (hE : 0 < equity) (hM : 0 < mark_price) (hS : 0 < qty_step)
    (hMx : 0 ≤ c.MAX_POSITION_SIZE_PCT) (hL : 0 < effectiveLeverage c leverage)
    (hq : q = (calc_qty_from_equity c equity confidence mark_price qty_step min_qty
      leverage size_multiplier avail).qty) :
    q * mark_price / effectiveLeverage c leverage ≤
      equity * c.MAX_POSITION_SIZE_PCT / 100 ∧
    (∀ a, avail = some a → 0 < a →
      q * mark_price / effectiveLeverage c leverage ≤ a * (19/20)) ∧
    (∃ n : ℤ, q = (n : ℚ) * qty_step) := by
  unfold calc_qty_from_equity at hq
  rw [if_neg (by push_neg; exact ⟨hE, hM⟩)] at hq
  dsimp only at hq
  set L := effectiveLeverage c leverage with hLdef
  set m := sizingMargin c equity confidence size_multiplier avail with hm
  set raw := m * L / mark_price with hraw
  have hmm : (0:ℚ) ≤ equity * c.MAX_POSITION_SIZE_PCT / 100 :=
    div_nonneg (mul_nonneg hE.le hMx) (by norm_num)
  have hcap : m ≤ equity * c.MAX_POSITION_SIZE_PCT / 100 :=
    sizingMargin_le_cap c equity confidence size_multiplier avail
  have hqle : roundQty raw qty_step ≤ max raw 0 := roundQty_le_max raw qty_step hS
  have key : ∀ B : ℚ, m ≤ B → 0 ≤ B → roundQty raw qty_step * mark_price / L ≤ B := by
    intro B hmB hB
    rw [div_le_iff₀ hL]
    have h1 : roundQty raw qty_step * mark_price ≤ max raw 0 * mark_price :=
      mul_le_mul_of_nonneg_right hqle hM.le
    have h2 : max raw 0 * mark_price = max (raw * mark_price) 0 := by
      rw [max_mul_of_nonneg _ _ hM.le, zero_mul]
    have h3 : raw * mark_price = m * L := div_mul_cancel₀ _ (ne_of_gt hM)
    have h4 : max (raw * mark_price) 0 ≤ B * L := by
      rw [h3]
      exact max_le (mul_le_mul_of_nonneg_right hmB hL.le) (mul_nonneg hB hL.le)
    linarith
  split_ifs at hq with hmin
  · subst hq
    refine ⟨?_, ?_, ?_⟩
    · dsimp only
      rw [zero_mul, zero_div]
      exact hmm
    · intro a hab ha
      dsimp only
      rw [zero_mul, zero_div]
      positivity
    · exact ⟨0, by rw [Int.cast_zero, zero_mul]⟩
  · subst hq
    refine ⟨key _ hcap hmm, ?_, ?_⟩
    · intro a hab ha
      subst hab
      exact key _ (sizingMargin_le_avail c equity confidence size_multiplier a ha)
        (by positivity)
    · exact ⟨truncRat (raw / qty_step), rfl⟩


/-- Witness for C3: equity 1000, confidence 3, price 2, step 0.1, available
balance 50. -/
theorem calc_qty_from_equity_margin_cap_witness :
    (0:ℚ) < 1000 ∧ (0:ℚ) < 2 ∧ (0:ℚ) < 1/10 ∧
    (0:ℚ) ≤ defaultConfig.MAX_POSITION_SIZE_PCT ∧
    0 < effectiveLeverage defaultConfig none ∧
    ((calc_qty_from_equity defaultConfig 1000 3 2 (1/10) (1/10) none 1
          (some 50)).qty * 2 / effectiveLeverage defaultConfig none ≤
        1000 * defaultConfig.MAX_POSITION_SIZE_PCT / 100 ∧
      (∀ a, (some (50:ℚ) : Option ℚ) = some a → 0 < a →
        (calc_qty_from_equity defaultConfig 1000 3 2 (1/10) (1/10) none 1
            (some 50)).qty * 2 / effectiveLeverage defaultConfig none ≤ a * (19/20)) ∧
      (∃ n : ℤ, (calc_qty_from_equity defaultConfig 1000 3 2 (1/10) (1/10) none 1
          (some 50)).qty = (n : ℚ) * (1/10))) :=
  ⟨by norm_num, by norm_num, by norm_num, by norm_num [defaultConfig],
      by norm_num [effectiveLeverage, defaultConfig],
    calc_qty_from_equity_margin_cap defaultConfig 1000 3 2 (1/10) (1/10) none 1
      (some 50) _ (by norm_num) (by norm_num) (by norm_num)
      (by norm_num [defaultConfig]) (by norm_num [effectiveLeverage, defaultConfig]) rfl⟩

/-- C5: on the current UTC day, `can_trade` returns false whenever the
accumulated daily P&L is at or below -MAX_DAILY_LOSS_PCT (equality included),
whenever the daily trade count has reached the maximum, and whenever the
current time is before an active cooldown; otherwise it clears any (expired)
cooldown and returns (true, "OK"); and after the UTC day has rolled over the
counters are reset and it returns (true, "OK") again. -/
theorem can_trade_spec (c : Config) (st : RiskState) (now : ℚ) (today : String)
    (henf : c.ENFORCE_DAILY_LOSS_LIMIT = true) (hmax : 0 < c.MAX_DAILY_LOSS_PCT)
    (htr : 0 < c.MAX_DAILY_TRADES) :
    (st.daily_reset_date = today →
      ((st.daily_pnl ≤ -c.MAX_DAILY_LOSS_PCT → (can_trade c st now today).1.1 = false) ∧
       (c.MAX_DAILY_TRADES ≤ st.daily_trade_count → (can_trade c st now today).1.1 = false) ∧
       (∀ t, st.cooldown_until = some t → now < t → (can_trade c st now today).1.1 = false) ∧
       (¬st.daily_pnl ≤ -c.MAX_DAILY_LOSS_PCT → ¬c.MAX_DAILY_TRADES ≤ st.daily_trade_count →
        (∀ t, st.cooldown_until = some t → t ≤ now) →
        (can_trade c st now today).1 = (true, "OK") ∧
        (can_trade c st now today).2.cooldown_until = none))) ∧
    (st.daily_reset_date ≠ today → (can_trade c st now today).1 = (true, "OK")) := by
  by_cases hd : st.daily_reset_date = today
  · have hcd : check_daily_reset st today = st := by
      unfold check_daily_reset
      rw [if_neg (not_not_intro hd)]
    refine ⟨fun _ => ⟨?_, ?_, ?_, ?_⟩, fun hne => absurd hd hne⟩
    · intro hp
      unfold can_trade
      dsimp only
      rw [hcd, if_pos ⟨henf, hp⟩]
    · intro hc
      unfold can_trade
      dsimp only
      rw [hcd]
      by_cases hp : c.ENFORCE_DAILY_LOSS_LIMIT = true ∧ st.daily_pnl ≤ -c.MAX_DAILY_LOSS_PCT
      · rw [if_pos hp]
      · rw [if_neg hp, if_pos hc]
    · intro t ht hnow
      unfold can_trade
      dsimp only
      rw [hcd]
      by_cases hp : c.ENFORCE_DAILY_LOSS_LIMIT = true ∧ st.daily_pnl ≤ -c.MAX_DAILY_LOSS_PCT
      · rw [if_pos hp]
      · rw [if_neg hp]
        by_cases hc : c.MAX_DAILY_TRADES ≤ st.daily_trade_count
        · rw [if_pos hc]
        · rw [if_neg hc, ht]
          dsimp only
          rw [if_pos hnow]
    · intro hp hc hcool
      unfold can_trade
      dsimp only
      rw [hcd, if_neg (by rintro ⟨_, hpp⟩; exact hp hpp), if_neg hc]
      rcases hco : st.cooldown_until with _ | t
      · exact ⟨rfl, hco⟩
      · have hnl : ¬ now < t := not_lt.mpr (hcool t hco)
        dsimp only
        rw [if_neg hnl]
        exact ⟨rfl, rfl⟩
  · refine ⟨fun h => absurd h hd, fun _ => ?_⟩
    have hcd : check_daily_reset st today =
        { daily_pnl := 0, daily_trade_count := 0, consecutive_sl := 0,
          cooldown_until := none, last_sl_times := [], daily_reset_date := today } := by
      unfold check_daily_reset
      rw [if_pos hd]
    unfold can_trade
    dsimp only
    rw [hcd]
    rw [if_neg (by rintro ⟨_, hpp⟩; have h0 : (0:ℚ) ≤ -c.MAX_DAILY_LOSS_PCT := hpp; linarith)]
    rw [if_neg (by intro hpp; have h0 : c.MAX_DAILY_TRADES ≤ 0 := hpp; omega)]


/-- Witness for C5: daily P&L pushed to exactly -MAX_DAILY_LOSS_PCT on the
current day. -/
theorem can_trade_spec_witness :
    defaultConfig.ENFORCE_DAILY_LOSS_LIMIT = true ∧
    (0:ℚ) < defaultConfig.MAX_DAILY_LOSS_PCT ∧ 0 < defaultConfig.MAX_DAILY_TRADES ∧
    ((exRiskAtLimit.daily_reset_date = "2026-10-12" →
      ((exRiskAtLimit.daily_pnl ≤ -defaultConfig.MAX_DAILY_LOSS_PCT →
        (can_trade defaultConfig exRiskAtLimit 0 "2026-10-12").1.1 = false) ∧
       (defaultConfig.MAX_DAILY_TRADES ≤ exRiskAtLimit.daily_trade_count →
        (can_trade defaultConfig exRiskAtLimit 0 "2026-10-12").1.1 = false) ∧
       (∀ t, exRiskAtLimit.cooldown_until = some t → 0 < t →
        (can_trade defaultConfig exRiskAtLimit 0 "2026-10-12").1.1 = false) ∧
       (¬exRiskAtLimit.daily_pnl ≤ -defaultConfig.MAX_DAILY_LOSS_PCT →
        ¬defaultConfig.MAX_DAILY_TRADES ≤ exRiskAtLimit.daily_trade_count →
        (∀ t, exRiskAtLimit.cooldown_until = some t → t ≤ 0) →
        (can_trade defaultConfig exRiskAtLimit 0 "2026-10-12").1 = (true, "OK") ∧
        (can_trade defaultConfig exRiskAtLimit 0 "2026-10-12").2.cooldown_until = none))) ∧
     (exRiskAtLimit.daily_reset_date ≠ "2026-10-12" →
      (can_trade defaultConfig exRiskAtLimit 0 "2026-10-12").1 = (true, "OK"))) :=
  ⟨rfl, by decide, by decide,
    can_trade_spec defaultConfig exRiskAtLimit 0 "2026-10-12" rfl (by decide) (by decide)⟩

/-- C8: reconciliation is deterministic. If the manager is flat and the
exchange reports an open position (side, size, entry), the manager adopts it:
afterwards it has a position with exactly that side, quantity and entry
price. If the manager is open and the exchange reports no position, a
synthetic close record is produced whose exit reason compares the realized
P&L at the current price against half the stop-loss and take-profit
thresholds (SERVER_SL when pnl <= -stopLossPct/2, else SERVER_TP when pnl >=
takeProfitPct/2, else SERVER_CLOSE), and the manager transitions to flat. -/
theorem sync_with_exchange_spec (c : Config) (st : PosState) (pos : Option ExchangePos)
    (last_price : Option ℚ) (now : ℚ) (tid : String) :
    (st.side = "" → ∀ p, pos = some p →
      ((sync_with_exchange c st pos last_price now tid).1.side = p.side ∧
       (sync_with_exchange c st pos last_price now tid).1.qty = p.size ∧
       (sync_with_exchange c st pos last_price now tid).1.entry_price = p.entry_price ∧
       (p.side ≠ "" → has_position (sync_with_exchange c st pos last_price now tid).1 = true))) ∧
    (st.side ≠ "" → pos = none →
      (has_position (sync_with_exchange c st pos last_price now tid).1 = false ∧
       ∃ rec, (sync_with_exchange c st pos last_price now tid).2 = some rec ∧
         rec.exit_price = last_price.getD st.entry_price ∧
         rec.pnl_pct = pctChange st.entry_price (last_price.getD st.entry_price) st.side ∧
         rec.exit_reason =
           (if rec.pnl_pct ≤ -c.STOP_LOSS_PCT * (1/2) then "SERVER_SL"
            else if c.TAKE_PROFIT_PCT * (1/2) ≤ rec.pnl_pct then "SERVER_TP"
            else "SERVER_CLOSE"))) := by
  constructor
  · intro hside p hpos
    subst hpos
    unfold sync_with_exchange
    dsimp only
    rw [if_pos hside]
    refine ⟨rfl, rfl, rfl, ?_⟩
    intro hps
    simp [has_position, hps]
  · intro hside hpos
    subst hpos
    unfold sync_with_exchange
    dsimp only
    rw [if_pos hside]
    refine ⟨?_, ⟨_, rfl, rfl, rfl, rfl⟩⟩
    simp [has_position, resetState]


/-- Witness for C8: flat manager adopting an exchange-reported Buy 5 @ 2. -/
theorem sync_with_exchange_spec_witness :
    ((exFlat.side = "" → ∀ p, (some (⟨"Buy", 5, 2⟩ : ExchangePos) : Option ExchangePos) = some p →
      ((sync_with_exchange defaultConfig exFlat (some ⟨"Buy", 5, 2⟩) none 0 "T-2").1.side = p.side ∧
       (sync_with_exchange defaultConfig exFlat (some ⟨"Buy", 5, 2⟩) none 0 "T-2").1.qty = p.size ∧
       (sync_with_exchange defaultConfig exFlat (some ⟨"Buy", 5, 2⟩) none 0 "T-2").1.entry_price = p.entry_price ∧
       (p.side ≠ "" →
        has_position (sync_with_exchange defaultConfig exFlat (some ⟨"Buy", 5, 2⟩) none 0 "T-2").1 = true))) ∧
     (exFlat.side ≠ "" → (some (⟨"Buy", 5, 2⟩ : ExchangePos) : Option ExchangePos) = none →
      (has_position (sync_with_exchange defaultConfig exFlat (some ⟨"Buy", 5, 2⟩) none 0 "T-2").1 = false ∧
       ∃ rec, (sync_with_exchange defaultConfig exFlat (some ⟨"Buy", 5, 2⟩) none 0 "T-2").2 = some rec ∧
         rec.exit_price = (none : Option ℚ).getD exFlat.entry_price ∧
         rec.pnl_pct = pctChange exFlat.entry_price ((none : Option ℚ).getD exFlat.entry_price) exFlat.side ∧
         rec.exit_reason =
           (if rec.pnl_pct ≤ -defaultConfig.STOP_LOSS_PCT * (1/2) then "SERVER_SL"
            else if defaultConfig.TAKE_PROFIT_PCT * (1/2) ≤ rec.pnl_pct then "SERVER_TP"
            else "SERVER_CLOSE")))) :=
  sync_with_exchange_spec defaultConfig exFlat (some ⟨"Buy", 5, 2⟩) none 0 "T-2"

theorem wantSide_cases (combined : ℤ) (s : String) (h1 : wantSide combined ≠ "")
    (h2 : wantSide combined = s) :
    (combined = 1 ∧ s = "Buy") ∨ (combined = -1 ∧ s = "Sell") := by
  unfold wantSide at h1 h2
  by_cases hcb1 : combined = 1
  · rw [if_pos hcb1] at h2
    exact Or.inl ⟨hcb1, h2.symm⟩
  · rw [if_neg hcb1] at h1 h2
    by_cases hcb2 : combined = -1
    · rw [if_pos hcb2] at h2
      exact Or.inr ⟨hcb2, h2.symm⟩
    · rw [if_neg hcb2] at h1
      exact absurd rfl h1

/-- C7: an add-on entry happens only while a position is open, with the
combined signal on the same side, the add-on count under the configured
maximum, and unrealized P&L at or above the minimum profit threshold; when it
happens, the entry price becomes the quantity-weighted average
(oldEntry*oldQty + addPrice*addQty)/(oldQty + addQty), the quantity grows by
the sized add-on quantity, the add-on counter increments by exactly one, and
the server-side stop/take-profit pair is recomputed from the new average. -/
theorem pyramid_add_spec (c : Config) (st : PosState) (price : ℚ) (combined : ℤ)
    (equity avail : ℚ) (confidence : ℤ) (orderOk : Bool) (r : PyramidResult) (qa : ℚ)
    (hq : 0 ≤ st.qty)
    (hr : r = pyramid_step c st price combined equity avail confidence orderOk)
    (hqa : qa = (calc_qty_from_equity c equity confidence price st.qty_step st.min_qty
      none c.PYRAMID_ADD_SIZE_MULT (some avail)).qty) :
    r.added = true →
      st.side ≠ "" ∧
      ((combined = 1 ∧ st.side = "Buy") ∨ (combined = -1 ∧ st.side = "Sell")) ∧
      st.add_count < c.PYRAMID_MAX_ADDS ∧
      c.PYRAMID_MIN_PROFIT_PCT ≤ pctChange st.entry_price price st.side ∧
      0 < qa ∧ st.min_qty ≤ qa ∧
      r.st.entry_price = (st.entry_price * st.qty + price * qa) / (st.qty + qa) ∧
      r.st.qty = st.qty + qa ∧
      r.st.add_count = st.add_count + 1 ∧
      r.stopSet = some (calc_sl_price c r.st, calc_tp_price c r.st) := by
  subst hqa
  unfold pyramid_step at hr
  dsimp only at hr
  split_ifs at hr with hg hpnl hqa0
  · -- gate, pnl and sizing all passed: inside add_position
    unfold add_position at hr
    dsimp only at hr
    split_ifs at hr with hc1 hc2 hc3 hc4 hc5
    · subst hr
      intro hadd
      simp at hadd
    · subst hr
      intro hadd
      simp at hadd
    · subst hr
      intro hadd
      simp at hadd
    · subst hr
      intro _
      dsimp only
      exact ⟨hc1, wantSide_cases combined st.side hg.1 hg.2.1, hg.2.2, hpnl, hqa0,
        not_lt.mp hc3, rfl, rfl, rfl, rfl⟩
    · exact absurd (by linarith : (0:ℚ) < st.qty +
        (calc_qty_from_equity c equity confidence price st.qty_step st.min_qty
          none c.PYRAMID_ADD_SIZE_MULT (some avail)).qty) hc5
    · subst hr
      intro hadd
      simp at hadd
  · subst hr
    intro hadd
    simp at hadd
  · subst hr
    intro hadd
    simp at hadd
  · subst hr
    intro hadd
    simp at hadd


/-- Witness for C7: long at 100 marked 101 (P&L 1% above the 0.3% threshold),
same-side signal, first add-on. -/
theorem pyramid_add_spec_witness :
    (0:ℚ) ≤ exLong.qty ∧
    ((pyramid_step defaultConfig exLong 101 1 1000 50 3 true).added = true →
      exLong.side ≠ "" ∧
      (((1:ℤ) = 1 ∧ exLong.side = "Buy") ∨ ((1:ℤ) = -1 ∧ exLong.side = "Sell")) ∧
      exLong.add_count < defaultConfig.PYRAMID_MAX_ADDS ∧
      defaultConfig.PYRAMID_MIN_PROFIT_PCT ≤ pctChange exLong.entry_price 101 exLong.side ∧
      0 < (calc_qty_from_equity defaultConfig 1000 3 101 exLong.qty_step exLong.min_qty
        none defaultConfig.PYRAMID_ADD_SIZE_MULT (some 50)).qty ∧
      exLong.min_qty ≤ (calc_qty_from_equity defaultConfig 1000 3 101 exLong.qty_step
        exLong.min_qty none defaultConfig.PYRAMID_ADD_SIZE_MULT (some 50)).qty ∧
      (pyramid_step defaultConfig exLong 101 1 1000 50 3 true).st.entry_price =
        (exLong.entry_price * exLong.qty +
          101 * (calc_qty_from_equity defaultConfig 1000 3 101 exLong.qty_step
            exLong.min_qty none defaultConfig.PYRAMID_ADD_SIZE_MULT (some 50)).qty) /
        (exLong.qty + (calc_qty_from_equity defaultConfig 1000 3 101 exLong.qty_step
          exLong.min_qty none defaultConfig.PYRAMID_ADD_SIZE_MULT (some 50)).qty) ∧
      (pyramid_step defaultConfig exLong 101 1 1000 50 3 true).st.qty =
        exLong.qty + (calc_qty_from_equity defaultConfig 1000 3 101 exLong.qty_step
          exLong.min_qty none defaultConfig.PYRAMID_ADD_SIZE_MULT (some 50)).qty ∧
      (pyramid_step defaultConfig exLong 101 1 1000 50 3 true).st.add_count =
        exLong.add_count + 1 ∧
      (pyramid_step defaultConfig exLong 101 1 1000 50 3 true).stopSet =
        some (calc_sl_price defaultConfig (pyramid_step defaultConfig exLong 101 1 1000 50 3 true).st,
          calc_tp_price defaultConfig (pyramid_step defaultConfig exLong 101 1 1000 50 3 true).st)) :=
  ⟨by decide,
    pyramid_add_spec defaultConfig exLong 101 1 1000 50 3 true _ _ (by decide) rfl rfl⟩

theorem filter_ne_nil_iff_exists (l : List ℚ) (cutoff : ℚ) :
    (l.filter (fun t => cutoff < t) ≠ []) ↔ ∃ t ∈ l, cutoff < t := by
  rw [Ne, List.filter_eq_nil_iff]
  push_neg
  simp

/-- C9 counterexample: a one-row table whose latest volume ratio (0.1) is
below the configured minimum (0.3), with no recent stop-loss and no open
position, still passes the entry filters — the low-volume condition is only
evaluated on tables of at least 20 rows, so "passed=false exactly when the
latest volume ratio is below the minimum (or ...)" fails as stated. -/
theorem check_entry_filters_cx :
    (check_entry_filters defaultConfig exRiskClean [exLowVolRow] 100 false).passed = true ∧
    ([exLowVolRow].getLast?.getD defaultRow).volume_ratio' <
      defaultConfig.MIN_VOLUME_RATIO' ∧
    exRiskClean.last_sl_times = [] ∧
    (check_entry_filters defaultConfig exRiskClean [exLowVolRow] 100 false).low_volume
      = false := by
  refine ⟨?_, ?_, rfl, ?_⟩ <;>
    norm_num [check_entry_filters, exRiskClean, exLowVolRow, defaultConfig, defaultRow]

/-- C9 (amended): `check_entry_filters` returns passed=false exactly when a
recorded stop-loss timestamp falls within the recent lookback window, or the
table has at least 20 rows and its latest volume ratio is below the
configured minimum, or a position is already open; each of the three reasons
is reported by its own boolean field regardless of the others. -/
theorem check_entry_filters_spec (c : Config) (st : RiskState) (df : List IndicatorRow)
    (now : ℚ) (has_pos : Bool) (r : EntryFilterResult)
    (hr : r = check_entry_filters c st df now has_pos) :
    (r.passed = false ↔
      ((∃ t ∈ st.last_sl_times, now - c.RECENT_SL_LOOKBACK < t) ∨
       (20 ≤ df.length ∧
         (df.getLast?.getD defaultRow).volume_ratio' < c.MIN_VOLUME_RATIO') ∨
       has_pos = true)) ∧
    (r.recent_sl = true ↔ ∃ t ∈ st.last_sl_times, now - c.RECENT_SL_LOOKBACK < t) ∧
    (r.low_volume = true ↔
      (20 ≤ df.length ∧
        (df.getLast?.getD defaultRow).volume_ratio' < c.MIN_VOLUME_RATIO')) ∧
    r.already_in_position = has_pos ∧ r.wide_spread = false := by
  have hrec := filter_ne_nil_iff_exists st.last_sl_times (now - c.RECENT_SL_LOOKBACK)
  have hvol : (¬(df.isEmpty : Prop) ∧ 20 ≤ df.length ∧
      (df.getLast?.getD defaultRow).volume_ratio' < c.MIN_VOLUME_RATIO') ↔
      (20 ≤ df.length ∧
        (df.getLast?.getD defaultRow).volume_ratio' < c.MIN_VOLUME_RATIO') := by
    constructor
    · rintro ⟨_, h2, h3⟩
      exact ⟨h2, h3⟩
    · rintro ⟨h2, h3⟩
      refine ⟨?_, h2, h3⟩
      intro he
      rw [List.isEmpty_iff] at he
      rw [he] at h2
      simp at h2
  unfold check_entry_filters at hr
  dsimp only at hr
  simp only [hvol] at hr
  split_ifs at hr with ha hb hc <;> subst hr <;>
    refine ⟨?_, ?_, ?_, rfl, rfl⟩ <;>
    simp_all


/-- Witness for C9 on a 20-row low-volume table with a recent stop-loss. -/
theorem check_entry_filters_spec_witness :
    ((check_entry_filters defaultConfig exRiskRecentSl
        (List.replicate 20 exLowVolRow) 100 false).passed = false ↔
      ((∃ t ∈ exRiskRecentSl.last_sl_times,
          (100:ℚ) - defaultConfig.RECENT_SL_LOOKBACK < t) ∨
       (20 ≤ (List.replicate 20 exLowVolRow).length ∧
         ((List.replicate 20 exLowVolRow).getLast?.getD defaultRow).volume_ratio' <
           defaultConfig.MIN_VOLUME_RATIO') ∨
       false = true)) ∧
    ((check_entry_filters defaultConfig exRiskRecentSl
        (List.replicate 20 exLowVolRow) 100 false).recent_sl = true ↔
      ∃ t ∈ exRiskRecentSl.last_sl_times,
        (100:ℚ) - defaultConfig.RECENT_SL_LOOKBACK < t) ∧
    ((check_entry_filters defaultConfig exRiskRecentSl
        (List.replicate 20 exLowVolRow) 100 false).low_volume = true ↔
      (20 ≤ (List.replicate 20 exLowVolRow).length ∧
        ((List.replicate 20 exLowVolRow).getLast?.getD defaultRow).volume_ratio' <
          defaultConfig.MIN_VOLUME_RATIO')) ∧
    (check_entry_filters defaultConfig exRiskRecentSl
      (List.replicate 20 exLowVolRow) 100 false).already_in_position = false ∧
    (check_entry_filters defaultConfig exRiskRecentSl
      (List.replicate 20 exLowVolRow) 100 false).wide_spread = false :=
  check_entry_filters_spec defaultConfig exRiskRecentSl
    (List.replicate 20 exLowVolRow) 100 false _ rfl

end TradingBot
